import Mathlib

/-!
Verification development for the cross-campus course-enrollment service
(`app/` package: FastAPI routers over a replicated directory store and a
per-campus shard store).

The Python source is shallowly embedded: pure helpers become Lean
functions; the relational state touched by the enrollment coordinator is
an explicit record (directory student list, course table, `learn`
relation) threaded through each operation; fallible endpoints return
`Except`.  Machine integers are modelled as `Nat`/`Int` (the ids handled
by the service are non-negative, validated upstream; `num_selected` is a
signed SQL integer and is modelled as `Int` because the code can drive it
negative).
-/

/-- Stable machine-readable error bodies, from `app/models/generic_error.py`. -/
structure BizError where
  code : Nat
  msg : String
deriving DecidableEq, Repr

def err_course_cap_conflict : BizError := ⟨10001, "Course capacity conflict"⟩

def err_course_id_conflict : BizError := ⟨10002, "Course id conflict"⟩

def err_course_id_full : BizError := ⟨10003, "No course id available"⟩

def err_course_not_exist : BizError := ⟨20001, "Course dose not exist"⟩

def err_teacher_not_exist : BizError := ⟨20002, "Teacher dose not exist"⟩

def err_student_not_exist : BizError := ⟨20003, "Student dose not exist"⟩

def err_no_permission : BizError := ⟨30001, "You are not allowed to do this"⟩

def err_invalid_uid : BizError := ⟨30002, "Invalid user id"⟩

def err_selection_time : BizError := ⟨30005, "Course selection time has not arrived"⟩

def err_bad_gateway : BizError := ⟨40001, "Bad gateway"⟩

/-- Campus tags, the `Literal['A','B','C']` of the source. -/
inductive Campus | A | B | C
deriving DecidableEq, Repr

/-- User roles, the `Literal['admin','student','teacher']` of the source. -/
inductive Role | admin | student | teacher
deriving DecidableEq, Repr

namespace ClassifyHelper

/-- `get_course_campus` from `app/utils/classify_helper.py`: the course id's
owning campus is decided by `course_id // 100000`. -/
def get_course_campus (course_id : Nat) : Campus :=
  if course_id / 100000 = 10 then .A
  else if course_id / 100000 = 11 then .B
  else .C

/-- `get_user_role` from `app/utils/classify_helper.py`: the user id's role is
decided by `user_id // 100000000`. -/
def get_user_role (user_id : Nat) : Role :=
  if user_id / 100000000 = 10 then .admin
  else if user_id / 100000000 = 11 then .student
  else .teacher

end ClassifyHelper

namespace Settings

/-- `Settings.current_min_cid` from `app/utils/settings.py`: the floor of each
campus's course-id band. -/
def current_min_cid : Campus → Nat
  | .A => 1000000
  | .B => 1100000
  | .C => 1200000

end Settings

namespace DbRouter

/-- The gap scan at the end of `gen_course_id` (`app/routers/db_router.py`):
walk the ascending id list and return `ids[i] + 1` at the first adjacent pair
that is not consecutive; `none` when the list is gap-free. -/
def findGap : List Nat → Option Nat
  | a :: b :: rest => if b ≠ a + 1 then some (a + 1) else findGap (b :: rest)
  | _ => none

/-- `gen_course_id` from `app/routers/db_router.py`.  `ids` is the shard's
course-id column in ascending order (the source obtains the maximum with
`SELECT MAX(id)`, modelled by `List.max?`, and the sorted list with
`SELECT id ... ORDER BY id`).  Returns `none` when the whole band is
exhausted. -/
def gen_course_id (min_id : Nat) (ids : List Nat) : Option Nat :=
  match ids.max? with
  | none => some min_id
  | some max_id =>
    if max_id % 100000 < 99999 then some (max_id + 1)
    else
      match ids with
      | [] => none
      | first :: _ => if first ≠ min_id then some min_id else findGap ids

/-- The id-generation step of `create_course` (`app/routers/db_router.py`):
a `none` from the allocator is surfaced as HTTP 409 with
`err_course_id_full` (id-space-exhausted). -/
def create_course_alloc (min_id : Nat) (ids : List Nat) : Except BizError Nat :=
  match gen_course_id min_id ids with
  | none => .error err_course_id_full
  | some new_id => .ok new_id

end DbRouter

/-! ## Allocator facts (supporting lemmas for the course-id allocator) -/

theorem max?_range' (a n : Nat) : (List.range' a (n + 1)).max? = some (a + n) := by
  induction n generalizing a with
  | zero => simp [List.max?_cons]
  | succ n ih =>
    rw [List.range'_succ, List.max?_cons, ih (a + 1)]
    simp
    omega

theorem findGap_range' (n : Nat) : ∀ a, DbRouter.findGap (List.range' a n) = none := by
  induction n with
  | zero => intro a; rfl
  | succ n ih =>
    intro a
    cases n with
    | zero => rfl
    | succ m =>
      rw [List.range'_succ, List.range'_succ]
      have h1 : DbRouter.findGap (a :: (a + 1) :: List.range' (a + 2) m)
          = DbRouter.findGap ((a + 1) :: List.range' (a + 2) m) := by
        simp [DbRouter.findGap]
      rw [h1]
      exact ih (a + 1)

theorem gen_course_id_full_band (a n : Nat) (h : (a + n) % 100000 = 99999) :
    DbRouter.gen_course_id a (List.range' a (n + 1)) = none := by
  unfold DbRouter.gen_course_id
  rw [max?_range' a n]
  simp only [h]
  rw [List.range'_succ]
  simp only [lt_irrefl, if_false, ne_eq, not_true_eq_false, ite_false]
  exact findGap_range' (n + 1) a

/-! ## Enrollment coordinator state model

The shard store's `course` table and `learn` relation, plus the directory
store's `student` table, as touched by `select_course` / `deselect_course`
in `app/routers/db_router.py`.  Each operation runs inside one transaction
(`get_shard_connection` wraps the request in `conn.begin()`); an error
raised mid-operation rolls the transaction back, so every error outcome is
modelled as returning the unchanged state.  The `learn` relation is a
many-to-many relation keyed by `(cid, sid)` (spec data model: "its
existence is the single source of truth for is-selected"), so the bare
`INSERT INTO learn` of `select_course` raises an integrity error on a
duplicate pair, which the handler does not catch: the transaction rolls
back and the state is unchanged. -/

structure Course where
  id : Nat
  num_selected : Int
  capacity : Int
deriving DecidableEq, Repr

structure ShardState where
  students : List Nat
  courses : List Course
  learn : List (Nat × Nat)
deriving DecidableEq, Repr

/-- Number of enrollment rows in `learn` referencing course `cid`. -/
def countLearn (learn : List (Nat × Nat)) (cid : Nat) : Nat :=
  (learn.filter (fun p => p.1 = cid)).length

/-- The central invariant (spec §8): for every course,
`0 ≤ num_selected ≤ capacity` and `num_selected` equals the number of
enrollment rows referencing it. -/
def Invariant (s : ShardState) : Prop :=
  ∀ c ∈ s.courses, 0 ≤ c.num_selected ∧ c.num_selected ≤ c.capacity ∧
    c.num_selected = countLearn s.learn c.id

instance (s : ShardState) : Decidable (Invariant s) := by
  unfold Invariant; infer_instance

/-- Relational well-formedness provided by the schema: course ids are a
primary key, and `(cid, sid)` is a key of `learn`. -/
def WF (s : ShardState) : Prop :=
  (s.courses.map Course.id).Nodup ∧ s.learn.Nodup

instance (s : ShardState) : Decidable (WF s) := by
  unfold WF; infer_instance

namespace DbRouter

/-- Errors a private enrollment operation can surface: a recognized
`BizError` HTTP detail, or an uncaught store integrity error (duplicate
`learn` key) that becomes an HTTP 500 after transaction rollback. -/
inductive SelErr
  | biz (e : BizError)
  | integrity
deriving DecidableEq, Repr

/-- `select_course` from `app/routers/db_router.py` (private enrollment
endpoint, parameter order `stu_id, course_id` as in the source): check the
student exists in the directory, read the course row under `FOR UPDATE`,
fail 409 on `num_selected >= capacity`, otherwise increment the counter
and insert the enrollment row in the same transaction. -/
def select_course (s : ShardState) (stu_id course_id : Nat) :
    Except SelErr Unit × ShardState :=
  if stu_id ∉ s.students then (.error (.biz err_student_not_exist), s)
  else
    match s.courses.find? (fun c => c.id = course_id) with
    | none => (.error (.biz err_course_not_exist), s)
    | some c =>
      if c.capacity ≤ c.num_selected then (.error (.biz err_course_cap_conflict), s)
      else if (course_id, stu_id) ∈ s.learn then (.error .integrity, s)
      else
        (.ok (),
          { s with
            courses := s.courses.map fun x =>
              if x.id = course_id then { x with num_selected := c.num_selected + 1 } else x
            learn := (course_id, stu_id) :: s.learn })

/-- `deselect_course` from `app/routers/db_router.py`: check the student
exists, read `num_selected` under `FOR UPDATE`, fail 404 if the course is
absent, then decrement the counter (no clamp, no enrolled check) and
delete the matching enrollment rows in the same transaction. -/
def deselect_course (s : ShardState) (stu_id course_id : Nat) :
    Except SelErr Unit × ShardState :=
  if stu_id ∉ s.students then (.error (.biz err_student_not_exist), s)
  else
    match s.courses.find? (fun c => c.id = course_id) with
    | none => (.error (.biz err_course_not_exist), s)
    | some c =>
      (.ok (),
        { s with
          courses := s.courses.map fun x =>
            if x.id = course_id then { x with num_selected := c.num_selected - 1 } else x
          learn := s.learn.filter (fun p => p ≠ (course_id, stu_id)) })

end DbRouter

/-! ## Counting lemmas for the learn relation -/

theorem countLearn_cons_same (learn : List (Nat × Nat)) (cid sid : Nat) :
    countLearn ((cid, sid) :: learn) cid = countLearn learn cid + 1 := by
  simp [countLearn]

theorem countLearn_cons_other (learn : List (Nat × Nat)) (cid sid d : Nat) (h : d ≠ cid) :
    countLearn ((cid, sid) :: learn) d = countLearn learn d := by
  simp [countLearn, List.filter_cons, Ne.symm h]

theorem countLearn_pos (learn : List (Nat × Nat)) (cid sid : Nat)
    (hmem : (cid, sid) ∈ learn) : 1 ≤ countLearn learn cid := by
  have h1 : (cid, sid) ∈ learn.filter (fun p => p.1 = cid) :=
    List.mem_filter.mpr ⟨hmem, by simp⟩
  have h2 := List.ne_nil_of_mem h1
  unfold countLearn
  exact List.length_pos.mpr h2

theorem countLearn_filter_ne_same (learn : List (Nat × Nat)) (cid sid : Nat)
    (hnd : learn.Nodup) (hmem : (cid, sid) ∈ learn) :
    countLearn (learn.filter (fun p => p ≠ (cid, sid))) cid = countLearn learn cid - 1 := by
  induction learn with
  | nil => cases hmem
  | cons h t ih =>
    rcases List.nodup_cons.mp hnd with ⟨hnotin, hndt⟩
    by_cases he : h = (cid, sid)
    · subst he
      have hfilt : t.filter (fun p => p ≠ (cid, sid)) = t := by
        apply List.filter_eq_self.mpr
        intro x hx
        simp only [ne_eq, decide_eq_true_eq]
        rintro rfl
        exact hnotin hx
      have hfc : ((cid, sid) :: t).filter (fun p => p ≠ (cid, sid))
          = t.filter (fun p => p ≠ (cid, sid)) := by
        simp [List.filter_cons]
      rw [hfc, hfilt, countLearn_cons_same]
      omega
    · have hmemt : (cid, sid) ∈ t := by
        rcases List.mem_cons.mp hmem with h1 | h1
        · exact absurd h1.symm he
        · exact h1
      have hpos := countLearn_pos t cid sid hmemt
      have hfc : (h :: t).filter (fun p => p ≠ (cid, sid))
          = h :: t.filter (fun p => p ≠ (cid, sid)) := by
        simp [List.filter_cons, he]
      rw [hfc]
      rcases h with ⟨hc, hs⟩
      by_cases hd : hc = cid
      · subst hd
        rw [countLearn_cons_same, countLearn_cons_same, ih hndt hmemt]
        omega
      · rw [countLearn_cons_other _ _ _ _ (fun hh => hd hh.symm),
            countLearn_cons_other _ _ _ _ (fun hh => hd hh.symm)]
        exact ih hndt hmemt

theorem countLearn_filter_ne_other (learn : List (Nat × Nat)) (cid sid d : Nat)
    (h : d ≠ cid) :
    countLearn (learn.filter (fun p => p ≠ (cid, sid))) d = countLearn learn d := by
  induction learn with
  | nil => rfl
  | cons hp t ih =>
    by_cases he : hp = (cid, sid)
    · subst he
      have hfc : ((cid, sid) :: t).filter (fun p => p ≠ (cid, sid))
          = t.filter (fun p => p ≠ (cid, sid)) := by
        simp [List.filter_cons]
      rw [hfc, ih, countLearn_cons_other _ _ _ _ h]
    · have hfc : (hp :: t).filter (fun p => p ≠ (cid, sid))
          = hp :: t.filter (fun p => p ≠ (cid, sid)) := by
        simp [List.filter_cons, he]
      rw [hfc]
      rcases hp with ⟨hc, hs⟩
      by_cases hd : hc = d
      · subst hd
        rw [countLearn_cons_same, countLearn_cons_same, ih]
      · rw [countLearn_cons_other _ _ _ _ (fun hh => hd hh.symm),
            countLearn_cons_other _ _ _ _ (fun hh => hd hh.symm)]
        exact ih

/-! ## Invariant preservation of the enrollment coordinator -/

theorem select_preserves (s : ShardState) (stu_id course_id : Nat)
    (hwf : WF s) (hinv : Invariant s) :
    Invariant (DbRouter.select_course s stu_id course_id).2 := by
  unfold DbRouter.select_course
  split
  · exact hinv
  · split
    · exact hinv
    · rename_i c hfind
      split
      · exact hinv
      · split
        · exact hinv
        · rename_i hcap hnotin
          have hcmem : c ∈ s.courses := List.mem_of_find?_eq_some hfind
          have hcid : c.id = course_id := by
            have := List.find?_some hfind
            simpa using this
          intro c' hc'
          rcases List.mem_map.mp hc' with ⟨c0, hc0, rfl⟩
          by_cases hx : c0.id = course_id
          · have hc0c : c0 = c :=
              List.inj_on_of_nodup_map hwf.1 hc0 hcmem (by rw [hx, hcid])
            subst hc0c
            rcases hinv c0 hc0 with ⟨h1, h2, h3⟩
            rw [hx] at h3
            simp only [hx, eq_self_iff_true, ite_true, countLearn_cons_same]
            refine ⟨by omega, by omega, by push_cast; omega⟩
          · rcases hinv c0 hc0 with ⟨h1, h2, h3⟩
            simp only [hx, ite_false, if_neg]
            refine ⟨h1, h2, ?_⟩
            rw [countLearn_cons_other s.learn course_id stu_id c0.id hx]
            exact h3

theorem deselect_enrolled_preserves (s : ShardState) (stu_id course_id : Nat)
    (hwf : WF s) (hinv : Invariant s) (hmem : (course_id, stu_id) ∈ s.learn) :
    Invariant (DbRouter.deselect_course s stu_id course_id).2 := by
  unfold DbRouter.deselect_course
  split
  · exact hinv
  · split
    · exact hinv
    · rename_i c hfind
      have hcmem : c ∈ s.courses := List.mem_of_find?_eq_some hfind
      have hcid : c.id = course_id := by
        have := List.find?_some hfind
        simpa using this
      have hcnt := countLearn_pos s.learn course_id stu_id hmem
      intro c' hc'
      rcases List.mem_map.mp hc' with ⟨c0, hc0, rfl⟩
      by_cases hx : c0.id = course_id
      · have hc0c : c0 = c :=
          List.inj_on_of_nodup_map hwf.1 hc0 hcmem (by rw [hx, hcid])
        subst hc0c
        rcases hinv c0 hc0 with ⟨h1, h2, h3⟩
        rw [hx] at h3
        simp only [hx, eq_self_iff_true, ite_true,
          countLearn_filter_ne_same s.learn course_id stu_id hwf.2 hmem]
        refine ⟨by omega, by omega, ?_⟩
        have hsub : (↑(countLearn s.learn course_id - 1) : Int)
            = ↑(countLearn s.learn course_id) - 1 := by
          omega
        rw [hsub]
        omega
      · rcases hinv c0 hc0 with ⟨h1, h2, h3⟩
        simp only [hx, ite_false, if_neg]
        refine ⟨h1, h2, ?_⟩
        rw [countLearn_filter_ne_other s.learn course_id stu_id c0.id hx]
        exact h3

deriving instance DecidableEq for Except

/-- C1 counterexample: from a state satisfying the invariant (course 1000000
with `num_selected = 0`, `capacity = 1`, no enrollments, student 1100000000
in the directory), a single deselect succeeds, decrements `num_selected` to
`-1` and removes no enrollment row, so the resulting state violates the
invariant. -/
theorem c1_deselect_counterexample :
    Invariant ⟨[1100000000], [⟨1000000, 0, 1⟩], []⟩ ∧
    WF ⟨[1100000000], [⟨1000000, 0, 1⟩], []⟩ ∧
    (DbRouter.deselect_course ⟨[1100000000], [⟨1000000, 0, 1⟩], []⟩ 1100000000 1000000).1
      = .ok () ∧
    (DbRouter.deselect_course ⟨[1100000000], [⟨1000000, 0, 1⟩], []⟩ 1100000000 1000000).2.courses
      = [⟨1000000, -1, 1⟩] ∧
    ¬ Invariant (DbRouter.deselect_course ⟨[1100000000], [⟨1000000, 0, 1⟩], []⟩
        1100000000 1000000).2 := by
  decide

/-- C1 (amended): from a state satisfying the invariant (and the schema keys),
a single select operation always preserves the invariant, and a single
deselect operation preserves it provided the target student is currently
enrolled in the course; a deselect of a non-enrolled student violates it. -/
theorem c1_single_op_invariant (s : ShardState) (stu_id course_id : Nat)
    (hwf : WF s) (hinv : Invariant s) :
    Invariant (DbRouter.select_course s stu_id course_id).2 ∧
    ((course_id, stu_id) ∈ s.learn →
      Invariant (DbRouter.deselect_course s stu_id course_id).2) :=
  ⟨select_preserves s stu_id course_id hwf hinv,
   fun hmem => deselect_enrolled_preserves s stu_id course_id hwf hinv hmem⟩

/-- Witness for the amended C1 theorem at a concrete state. -/
theorem c1_single_op_invariant_witness :
    Invariant (DbRouter.select_course ⟨[1100000000], [⟨1000000, 1, 2⟩],
        [(1000000, 1100000000)]⟩ 1100000000 1000000).2 ∧
    ((1000000, 1100000000) ∈ ([(1000000, 1100000000)] : List (Nat × Nat)) →
      Invariant (DbRouter.deselect_course ⟨[1100000000], [⟨1000000, 1, 2⟩],
          [(1000000, 1100000000)]⟩ 1100000000 1000000).2) :=
  c1_single_op_invariant ⟨[1100000000], [⟨1000000, 1, 2⟩], [(1000000, 1100000000)]⟩
    1100000000 1000000 (by decide) (by decide)

/-- C2: selecting a course whose `num_selected` has reached `capacity`, with a
student that exists in the directory, fails with the capacity-conflict error
and leaves the whole shard state (course row and learn relation) unchanged. -/
theorem c2_select_full_capacity_conflict (s : ShardState) (stu_id course_id : Nat)
    (c : Course) (hstu : stu_id ∈ s.students)
    (hfind : s.courses.find? (fun x => x.id = course_id) = some c)
    (hfull : c.capacity ≤ c.num_selected) :
    DbRouter.select_course s stu_id course_id
      = (.error (.biz err_course_cap_conflict), s) := by
  unfold DbRouter.select_course
  rw [if_neg (by simpa using hstu)]
  rw [hfind]
  show (if c.capacity ≤ c.num_selected then _ else _) = _
  rw [if_pos hfull]

/-- Witness for the C2 theorem at a concrete full course. -/
theorem c2_select_full_capacity_conflict_witness :
    DbRouter.select_course ⟨[1100000000], [⟨1000000, 2, 2⟩],
        [(1000000, 5), (1000000, 6)]⟩ 1100000000 1000000
      = (.error (.biz err_course_cap_conflict),
         ⟨[1100000000], [⟨1000000, 2, 2⟩], [(1000000, 5), (1000000, 6)]⟩) :=
  c2_select_full_capacity_conflict _ 1100000000 1000000 ⟨1000000, 2, 2⟩
    (by decide) (by decide) (by decide)

/-- C3 counterexample: with campus A's band floor 1000000 and existing ids
`[1000000, 1000001, 1000003]`, the allocator returns `1000004` (`max + 1`,
because the maximum is not at the band's last slot), not the first gap
`1000002` claimed by the spec. -/
theorem c3_allocator_counterexample :
    DbRouter.gen_course_id 1000000 [1000000, 1000001, 1000003] = some 1000004 ∧
    some 1000004 ≠ some (1000002 : Nat) := by
  decide

theorem create_course_alloc_of_none (min_id : Nat) (ids : List Nat)
    (h : DbRouter.gen_course_id min_id ids = none) :
    DbRouter.create_course_alloc min_id ids = .error err_course_id_full := by
  unfold DbRouter.create_course_alloc
  rw [h]

/-- C3 (amended): with existing ids `[1000000, 1000001, 1000003]` in campus
A's band the allocator returns `1000004` (`max + 1`; the gap scan only runs
when the maximum occupies the band's last slot `x99999`), and with a
contiguous run filling the entire band (`1000000..1099999`) allocation
returns `none`, which `create_course` surfaces as the id-space-exhausted
error. -/
theorem c3_allocator_behavior :
    DbRouter.gen_course_id 1000000 [1000000, 1000001, 1000003] = some 1000004 ∧
    DbRouter.gen_course_id (Settings.current_min_cid .A)
      (List.range' 1000000 100000) = none ∧
    DbRouter.create_course_alloc (Settings.current_min_cid .A)
      (List.range' 1000000 100000) = .error err_course_id_full := by
  have hfull : DbRouter.gen_course_id 1000000 (List.range' 1000000 100000) = none := by
    have h := gen_course_id_full_band 1000000 99999 (by norm_num)
    exact h
  exact ⟨by decide, hfull, create_course_alloc_of_none _ _ hfull⟩

/-- C7: the Identity Classifier is a pure total function; on the declared
valid user-id space `[1000000000, 1400000000)` the role is admin exactly when
`uid / 100000000 = 10`, student exactly when it is `11`, and teacher
otherwise (equivalently, the bands `[1.0e9, 1.1e9)`, `[1.1e9, 1.2e9)`,
`[1.2e9, 1.4e9)`); for every course id the campus is A exactly when
`cid / 100000 = 10`, B when it is `11`, and C otherwise. -/
theorem c7_identity_classifier :
    (∀ uid : Nat, 1000000000 ≤ uid → uid < 1400000000 →
      ((ClassifyHelper.get_user_role uid = .admin ↔ uid / 100000000 = 10) ∧
       (ClassifyHelper.get_user_role uid = .student ↔ uid / 100000000 = 11) ∧
       (ClassifyHelper.get_user_role uid = .teacher ↔
         uid / 100000000 ≠ 10 ∧ uid / 100000000 ≠ 11) ∧
       (ClassifyHelper.get_user_role uid = .admin ↔ uid < 1100000000) ∧
       (ClassifyHelper.get_user_role uid = .student ↔
         1100000000 ≤ uid ∧ uid < 1200000000) ∧
       (ClassifyHelper.get_user_role uid = .teacher ↔ 1200000000 ≤ uid))) ∧
    (∀ cid : Nat,
      ((ClassifyHelper.get_course_campus cid = .A ↔ cid / 100000 = 10) ∧
       (ClassifyHelper.get_course_campus cid = .B ↔ cid / 100000 = 11) ∧
       (ClassifyHelper.get_course_campus cid = .C ↔
         cid / 100000 ≠ 10 ∧ cid / 100000 ≠ 11))) := by
  constructor
  · intro uid h1 h2
    unfold ClassifyHelper.get_user_role
    split_ifs with ha hb <;> simp_all <;> omega
  · intro cid
    unfold ClassifyHelper.get_course_campus
    split_ifs with ha hb <;> simp_all

/-- Witness for the C7 theorem at concrete ids in each band. -/
theorem c7_identity_classifier_witness :
    (ClassifyHelper.get_user_role 1150000000 = .student ↔
      1150000000 / 100000000 = 11) ∧
    (ClassifyHelper.get_course_campus 1000000 = .A ↔ 1000000 / 100000 = 10) :=
  ⟨(c7_identity_classifier.1 1150000000 (by norm_num) (by norm_num)).2.1,
   (c7_identity_classifier.2 1000000).1⟩

/-! ## Query federation (caller-facing `query_courses`, `app/routers/course_router.py`)

The endpoint first builds (but does not yet await) the local shard query
coroutine, then dispatches on the filter: a numeric course id is classified
to its owning campus directly; otherwise one task per requested campus is
gathered and merged.  The local single-campus query it awaits is the
function `db_router.query_courses`, which is referenced by the router but
is not among the repository files present here (the snapshot also lacks
`app/routers/dbprivate/shard_router.py` and `app/settings.py`, which
`main.py` imports); it is therefore modelled from the spec: "answer
filtered list-courses queries against one campus's shard", abstracted as
an opaque response `localResp` whose execution costs one store access.
Constructing the coroutine itself touches nothing — Python executes none
of an async function's body until the coroutine is awaited — so branches
that never await it produce no store effect.

Two facts about remote outcomes shape the merge:

* `remote_call` returns `(resp.status, await resp.json())`: the body of a
  delegate response is a plain parsed-JSON `dict`.  The single-course-id
  arm returns that dict directly and FastAPI validates it against the
  declared `CourseQueryResp` response model; the fan-out merge loop instead
  executes `final_list.extend(resp.result)` — attribute access on a dict —
  which raises `AttributeError` and fails the whole request whenever a
  remote call actually returns a 2xx response.
* The `params` dict sent with every delegate call always carries
  `only_not_full` with value Python `None` or a `bool`; aiohttp/yarl accept
  only str/int/float query-parameter values and raise `TypeError` inside
  `remote_call`'s `try`, which is caught and returned as the `(None, None)`
  sentinel — so in this program every fan-out delegate call degrades to the
  no-status outcome and remote rows never actually arrive.  The `remote`
  oracle below is the hypothetical wire outcome; the program's composition
  with parameter serialization is `fanout_delegate_outcome`. -/

structure CourseResp where
  course_id : Nat
  teachers : String
  name : String
  capacity : Int
  num_selected : Int
  campus : Campus
deriving DecidableEq, Repr

structure CourseQueryResp where
  total : Nat
  result : List CourseResp
deriving DecidableEq, Repr

/-- A Python runtime error escaping a handler (HTTP 500): unpacking an
un-awaited coroutine (`TypeError`), or attribute access on a parsed-JSON
dict (`AttributeError`). -/
inductive PyError
  | typeError
  | attributeError
deriving DecidableEq, Repr

namespace CourseRouter

/-- Observable side effects of one request: a query against a local store,
or one outbound delegate call to a peer campus. -/
inductive Effect
  | storeAccess
  | remoteCall (c : Campus)
deriving DecidableEq, Repr

/-- Did a delegate call fail softly: no status at all (the sentinel), or a
well-formed non-2xx status. -/
def remoteFailed : Option (Nat × CourseQueryResp) → Bool
  | none => true
  | some (code, _) => decide (¬(200 ≤ code ∧ code < 300))

/-- The merge loop over the `asyncio.gather` results (course_router.py:77-84):
a local task yields a typed `CourseQueryResp` whose rows are appended; a
remote task yields a `(status, body)` pair whose body is the parsed-JSON
dict.  A missing or non-2xx status is skipped (zero rows), but on a 2xx
status the loop runs `final_list.extend(resp.result)` — attribute access on
the dict — which raises `AttributeError` and aborts the whole merge. -/
def mergeTaskResults :
    List (CourseQueryResp ⊕ Option (Nat × CourseQueryResp)) →
      Except PyError (List CourseResp)
  | [] => .ok []
  | .inl resp :: rest => (mergeTaskResults rest).map (fun l => resp.result ++ l)
  | .inr (some (code, _)) :: rest =>
      if 200 ≤ code ∧ code < 300 then .error .attributeError
      else mergeTaskResults rest
  | .inr none :: rest => mergeTaskResults rest

/-- Python values that can appear in the delegate call's query `params`. -/
inductive PyParamVal
  | pyNone
  | pyBool (b : Bool)
  | pyInt (n : Nat)
  | pyStr (str : String)
deriving DecidableEq, Repr

/-- yarl (aiohttp's URL encoder) accepts only str/int/float query-parameter
values; Python `None` and `bool` raise `TypeError`. -/
def yarl_serializable : PyParamVal → Bool
  | .pyInt _ => true
  | .pyStr _ => true
  | .pyNone => false
  | .pyBool _ => false

/-- The always-present `only_not_full` entry of the `params` dict built at
course_router.py:51/54: Python `None` (the FastAPI default) or a `bool`. -/
def only_not_full_param : Option Bool → PyParamVal
  | none => .pyNone
  | some b => .pyBool b

/-- One fan-out delegate call as this program performs it: `wire` is the
outcome the peer would produce, but when any query parameter is
unserializable the `TypeError` raised inside `remote_call`'s `try` is
caught and the `(None, None)` sentinel returned before anything is sent. -/
def fanout_delegate_outcome (onf : Option Bool)
    (wire : Option (Nat × CourseQueryResp)) : Option (Nat × CourseQueryResp) :=
  if yarl_serializable (only_not_full_param onf) then wire else none

/-- `query_courses` from `app/routers/course_router.py` (the caller-facing
federated read).  `campusSet` is the requested campus set in iteration
order; `course` is the course filter (`int` id or name substring);
`remote` is the outcome of one delegate call per campus (`none` = the
no-status sentinel of `remote_call`; because of `fanout_delegate_outcome`
that is the only outcome this program's fan-out calls can reach).  In the
single-id arm a 2xx body (a dict) is returned directly and validated by
FastAPI against the declared response model; in the federated arm a 2xx
remote outcome aborts the merge with `AttributeError`. -/
def query_courses (current : Campus) (campusSet : List Campus)
    (course : Option (Nat ⊕ String)) (localResp : CourseQueryResp)
    (remote : Campus → Option (Nat × CourseQueryResp)) :
    Except PyError CourseQueryResp × List Effect :=
  match course with
  | some (.inl cid) =>
    let cc := ClassifyHelper.get_course_campus cid
    if cc ∉ campusSet then (.ok ⟨0, []⟩, [])
    else if cc = current then (.ok localResp, [.storeAccess])
    else
      match remote cc with
      | some (code, resp) =>
          if 200 ≤ code ∧ code < 300 then (.ok resp, [.remoteCall cc])
          else (.ok ⟨0, []⟩, [.remoteCall cc])
      | none => (.ok ⟨0, []⟩, [.remoteCall cc])
  | _ =>
    let tasks := (if current ∈ campusSet then [Sum.inl localResp] else [])
      ++ (campusSet.filter (fun c => c ≠ current)).map (fun c => Sum.inr (remote c))
    let trace := (if current ∈ campusSet then [Effect.storeAccess] else [])
      ++ (campusSet.filter (fun c => c ≠ current)).map Effect.remoteCall
    match mergeTaskResults tasks with
    | .error e => (.error e, trace)
    | .ok finalList => (.ok ⟨finalList.length, finalList⟩, trace)

end CourseRouter

theorem mergeTaskResults_all_failed (l : List Campus)
    (remote : Campus → Option (Nat × CourseQueryResp))
    (h : ∀ c ∈ l, CourseRouter.remoteFailed (remote c) = true) :
    CourseRouter.mergeTaskResults (l.map (fun c => Sum.inr (remote c))) = .ok [] := by
  induction l with
  | nil => rfl
  | cons c t ih =>
    have hc := h c (List.mem_cons_self c t)
    have ht := fun x hx => h x (List.mem_cons_of_mem c hx)
    cases hr : remote c with
    | none => simpa [CourseRouter.mergeTaskResults, hr] using ih ht
    | some pr =>
      rcases pr with ⟨code, resp⟩
      rw [hr] at hc
      have hbad : ¬(200 ≤ code ∧ code < 300) := by
        have hx : code < 200 ∨ 300 ≤ code := by
          simpa [CourseRouter.remoteFailed] using hc
        omega
      simp only [List.map_cons, hr, CourseRouter.mergeTaskResults, if_neg hbad]
      exact ih ht

theorem mergeTaskResults_has_2xx (l : List Campus)
    (remote : Campus → Option (Nat × CourseQueryResp)) (c : Campus)
    (hc : c ∈ l) (code : Nat) (resp : CourseQueryResp)
    (hr : remote c = some (code, resp)) (h2 : 200 ≤ code) (h3 : code < 300) :
    CourseRouter.mergeTaskResults (l.map (fun x => Sum.inr (remote x)))
      = .error .attributeError := by
  induction l with
  | nil => cases hc
  | cons d t ih =>
    by_cases hok : ∃ cd rd, remote d = some (cd, rd) ∧ 200 ≤ cd ∧ cd < 300
    · rcases hok with ⟨cd, rd, hd, h4, h5⟩
      simp only [List.map_cons, hd, CourseRouter.mergeTaskResults]
      rw [if_pos ⟨h4, h5⟩]
    · have hct : c ∈ t := by
        rcases List.mem_cons.mp hc with rfl | hm
        · exact absurd ⟨code, resp, hr, h2, h3⟩ hok
        · exact hm
      cases hd : remote d with
      | none => simpa [CourseRouter.mergeTaskResults, hd] using ih hct
      | some pr =>
        rcases pr with ⟨cd, rd⟩
        have hbad : ¬(200 ≤ cd ∧ cd < 300) := fun hx => hok ⟨cd, rd, hd, hx.1, hx.2⟩
        simp only [List.map_cons, hd, CourseRouter.mergeTaskResults, if_neg hbad]
        exact ih hct

theorem query_courses_federated_arm (current : Campus) (campusSet : List Campus)
    (course : Option (Nat ⊕ String)) (localResp : CourseQueryResp)
    (remote : Campus → Option (Nat × CourseQueryResp))
    (hcourse : ∀ cid : Nat, course ≠ some (.inl cid)) :
    CourseRouter.query_courses current campusSet course localResp remote
      = (match CourseRouter.mergeTaskResults
            ((if current ∈ campusSet then [Sum.inl localResp] else [])
              ++ (campusSet.filter (fun c => c ≠ current)).map
                  (fun c => Sum.inr (remote c))) with
         | .error e => (.error e,
            (if current ∈ campusSet then [CourseRouter.Effect.storeAccess] else [])
              ++ (campusSet.filter (fun c => c ≠ current)).map
                  CourseRouter.Effect.remoteCall)
         | .ok finalList => (.ok ⟨finalList.length, finalList⟩,
            (if current ∈ campusSet then [CourseRouter.Effect.storeAccess] else [])
              ++ (campusSet.filter (fun c => c ≠ current)).map
                  CourseRouter.Effect.remoteCall)) := by
  match course with
  | none => rfl
  | some (.inl cid) => exact absurd rfl (hcourse cid)
  | some (.inr str) => rfl

/-- C4: a caller-facing list-courses request with a numeric course id whose
owning campus is outside the requested campus set returns
`{total: 0, results: []}` with an empty effect trace — no store access and
no remote call. -/
theorem c4_course_id_outside_campus_set (current : Campus) (campusSet : List Campus)
    (cid : Nat) (localResp : CourseQueryResp)
    (remote : Campus → Option (Nat × CourseQueryResp))
    (h : ClassifyHelper.get_course_campus cid ∉ campusSet) :
    CourseRouter.query_courses current campusSet (some (.inl cid)) localResp remote
      = (.ok ⟨0, []⟩, []) := by
  simp [CourseRouter.query_courses, h]

/-- Witness for the C4 theorem: campus B's course id 1100000 requested with
`campus={A}` from campus A. -/
theorem c4_course_id_outside_campus_set_witness :
    CourseRouter.query_courses .A [.A] (some (.inl 1100000))
      ⟨1, [⟨1000000, "t", "db", 10, 0, .A⟩]⟩ (fun _ => none)
      = (.ok ⟨0, []⟩, []) :=
  c4_course_id_outside_campus_set .A [.A] 1100000
    ⟨1, [⟨1000000, "t", "db", 10, 0, .A⟩]⟩ (fun _ => none) (by decide)

/-- C5 counterexample: federation over `{A, B}` from campus A where campus
B's delegate call does return a 2xx response carrying one row: the merge
loop's `resp.result` attribute access on the parsed-JSON dict raises
`AttributeError` and the request fails, instead of returning the claimed
concatenation (`total = 2`, both campuses' rows). -/
theorem c5_merge_counterexample :
    (CourseRouter.query_courses .A [.A, .B] none
        ⟨1, [⟨1000000, "t", "db", 10, 0, .A⟩]⟩
        (fun c => if c = .B
          then some (200, ⟨1, [⟨1100000, "u", "os", 20, 1, .B⟩]⟩)
          else none)).1
      = .error .attributeError ∧
    (Except.error .attributeError : Except PyError CourseQueryResp)
      ≠ .ok ⟨2, [⟨1000000, "t", "db", 10, 0, .A⟩,
                 ⟨1100000, "u", "os", 20, 1, .B⟩]⟩ := by
  decide

/-- C5 (amended): on a federated (non-single-id) list-courses request, a
remote campus whose delegate call returns no status or a non-2xx status
contributes zero rows rather than failing the request: when every remote
call fails this way the request succeeds and the returned total equals the
number of concatenated result rows — the local campus's rows alone when it
is requested.  A remote call that does return a 2xx response instead aborts
the merge with `AttributeError`; and in this program every fan-out delegate
call in fact returns the no-status sentinel, because its always-present
`only_not_full` parameter is unserializable by aiohttp/yarl. -/
theorem c5_federated_merge (current : Campus) (campusSet : List Campus)
    (course : Option (Nat ⊕ String)) (localResp : CourseQueryResp)
    (remote : Campus → Option (Nat × CourseQueryResp))
    (hcourse : ∀ cid : Nat, course ≠ some (.inl cid)) :
    ((∀ c ∈ campusSet, c ≠ current → CourseRouter.remoteFailed (remote c) = true) →
      (CourseRouter.query_courses current campusSet course localResp remote).1
        = .ok ⟨(if current ∈ campusSet then localResp.result else []).length,
               if current ∈ campusSet then localResp.result else []⟩) ∧
    (∀ c ∈ campusSet, c ≠ current →
      ∀ code resp, remote c = some (code, resp) → 200 ≤ code → code < 300 →
      (CourseRouter.query_courses current campusSet course localResp remote).1
        = .error .attributeError) ∧
    (∀ (onf : Option Bool) (wire : Option (Nat × CourseQueryResp)),
      CourseRouter.fanout_delegate_outcome onf wire = none) := by
  rw [query_courses_federated_arm current campusSet course localResp remote hcourse]
  refine ⟨?_, ?_, ?_⟩
  · intro hfail
    have hfilt : ∀ c ∈ campusSet.filter (fun c => c ≠ current),
        CourseRouter.remoteFailed (remote c) = true := by
      intro c hcmem
      rcases List.mem_filter.mp hcmem with ⟨hmem, hne⟩
      exact hfail c hmem (by simpa using hne)
    have hmerge := mergeTaskResults_all_failed _ remote hfilt
    by_cases hc : current ∈ campusSet
    · simp only [hc, if_true, List.singleton_append]
      show ((match CourseRouter.mergeTaskResults (.inl localResp :: _) with
        | .error e => _
        | .ok finalList => _) : Except PyError CourseQueryResp × _).1 = _
      rw [CourseRouter.mergeTaskResults, hmerge]
      simp [Except.map]
    · simp only [hc, if_false, List.nil_append]
      rw [hmerge]
  · intro c hcmem hne code resp hr h2 h3
    have hcf : c ∈ campusSet.filter (fun c => c ≠ current) :=
      List.mem_filter.mpr ⟨hcmem, by simpa using hne⟩
    have hmerge := mergeTaskResults_has_2xx _ remote c hcf code resp hr h2 h3
    by_cases hc : current ∈ campusSet
    · simp only [hc, if_true, List.singleton_append]
      show ((match CourseRouter.mergeTaskResults (.inl localResp :: _) with
        | .error e => _
        | .ok finalList => _) : Except PyError CourseQueryResp × _).1 = _
      rw [CourseRouter.mergeTaskResults, hmerge]
      rfl
    · simp only [hc, if_false, List.nil_append]
      rw [hmerge]
  · intro onf wire
    cases onf <;> rfl

/-- Witness for the amended C5 theorem: federation over `{A, B}` from campus
A where campus B's delegate call returns the no-status sentinel; the request
succeeds with campus A's single row and `total = 1`. -/
theorem c5_federated_merge_witness :
    (CourseRouter.query_courses .A [.A, .B] none
        ⟨1, [⟨1000000, "t", "db", 10, 0, .A⟩]⟩ (fun _ => none)).1
      = .ok ⟨(if Campus.A ∈ [Campus.A, Campus.B]
              then [(⟨1000000, "t", "db", 10, 0, .A⟩ : CourseResp)] else []).length,
             if Campus.A ∈ [Campus.A, Campus.B]
              then [(⟨1000000, "t", "db", 10, 0, .A⟩ : CourseResp)] else []⟩ :=
  (c5_federated_merge .A [.A, .B] none ⟨1, [⟨1000000, "t", "db", 10, 0, .A⟩]⟩
    (fun _ => none) (fun cid h => by cases h)).1 (by decide)

/-! ## Local filtered course query (`build_course_filter_sql` / `get_courses`)

`build_course_filter_sql` is an `async def`: its body (including the
directory lookup `SELECT id FROM teacher WHERE name = :name`) runs only
when the returned coroutine is awaited.  `get_courses` and
`get_courses_student` call it WITHOUT `await` and unpack the coroutine
object into three values, which raises `TypeError` in Python: every
filtered query dies with HTTP 500 after only the two temporary-table
statements.  The SQL fragments the builder accumulates are modelled as
structured filter data rather than strings. -/

/-- An `int | str` query filter value. -/
inductive FilterVal
  | i (n : Nat)
  | s (str : String)
deriving DecidableEq, Repr

/-- The join/where fragments and bind parameters accumulated by
`build_course_filter_sql`. -/
structure FilterParts where
  whereCourseId : Option Nat
  whereCourseName : Option String
  joinTeach : Bool
  whereTeacherIds : List Nat
  whereNotFull : Bool
  joinLearn : Bool
  whereStuId : Option Nat
deriving DecidableEq, Repr

/-- Store statements issued by the local course-query path. -/
inductive DbEffect
  | dirTmpTable
  | shardTmpTable
  | dirTeacherNameQuery
  | shardDataQuery
deriving DecidableEq, Repr

namespace DbRouter

/-- `build_course_filter_sql` from `app/routers/db_router.py`, as awaited:
course id/name and teacher id filters are pure fragment building; a textual
teacher filter first resolves ids in the directory store (`dirTeachers` is
the directory's teacher table) and short-circuits to `none` when no teacher
matches. -/
def build_course_filter_sql (dirTeachers : List (Nat × String))
    (course teacher : Option FilterVal) (only_not_full : Bool)
    (stu_id : Option Nat) (only_selected : Bool) :
    Option FilterParts × List DbEffect :=
  let p0 : FilterParts := ⟨none, none, false, [], false, false, none⟩
  let p1 := match course with
    | some (.i n) => { p0 with whereCourseId := some n }
    | some (.s str) => { p0 with whereCourseName := some str }
    | none => p0
  let tail := fun (p : FilterParts) =>
    let pa := if only_not_full then { p with whereNotFull := true } else p
    if only_selected then { pa with joinLearn := true, whereStuId := stu_id } else pa
  match teacher with
  | none => (some (tail p1), [])
  | some (.i t) => (some (tail { p1 with joinTeach := true, whereTeacherIds := [t] }), [])
  | some (.s nm) =>
    let ids := (dirTeachers.filter (fun q => q.2 = nm)).map Prod.fst
    if ids.isEmpty then (none, [DbEffect.dirTeacherNameQuery])
    else (some (tail { p1 with joinTeach := true, whereTeacherIds := ids }),
          [DbEffect.dirTeacherNameQuery])

/-- `get_courses` from `app/routers/db_router.py`.  The unconstrained branch
runs the full semi-join pipeline, abstracted here as the opaque response
`unconstrained` (its internals decide no claim); the filtered branch unpacks
the un-awaited `build_course_filter_sql` coroutine and therefore raises
`TypeError` after creating the two temporary tables, before any query
against the directory or the shard's data tables. -/
def get_courses (dirTeachers : List (Nat × String))
    (course teacher : Option FilterVal) (only_not_full : Bool)
    (unconstrained : CourseQueryResp) :
    Except PyError CourseQueryResp × List DbEffect :=
  if course = none ∧ teacher = none ∧ only_not_full = false then
    (.ok unconstrained, [.dirTmpTable, .shardTmpTable, .shardDataQuery])
  else
    (.error .typeError, [.dirTmpTable, .shardTmpTable])

end DbRouter

/-- C6 evidence: as written, any filtered `get_courses` call (for example a
textual teacher filter matching nobody) raises `TypeError` — the claimed
empty-result short-circuit is unreachable; the awaited helper itself does
return `none` after only the directory lookup whenever no teacher matches
the name, for every input. -/
theorem c6_filtered_query_type_error :
    DbRouter.get_courses [(1200000000, "bob")] none (some (.s "nobody")) false ⟨0, []⟩
      = (.error .typeError, [.dirTmpTable, .shardTmpTable]) ∧
    DbRouter.build_course_filter_sql [(1200000000, "bob")] none (some (.s "nobody"))
      false none false = (none, [.dirTeacherNameQuery]) ∧
    (∀ (dirTeachers : List (Nat × String)) (course : Option FilterVal) (nm : String)
        (only_not_full : Bool) (stu_id : Option Nat) (only_selected : Bool),
      dirTeachers.filter (fun q => q.2 = nm) = [] →
      DbRouter.build_course_filter_sql dirTeachers course (some (.s nm))
        only_not_full stu_id only_selected = (none, [.dirTeacherNameQuery])) := by
  refine ⟨by decide, by decide, ?_⟩
  intro dirTeachers course nm only_not_full stu_id only_selected h
  simp [DbRouter.build_course_filter_sql, h]

/-- Witness for the C6 theorem's universally quantified part. -/
theorem c6_filtered_query_type_error_witness :
    DbRouter.build_course_filter_sql [] none (some (.s "x")) false none false
      = (none, [.dirTeacherNameQuery]) :=
  c6_filtered_query_type_error.2.2 [] none "x" false none false rfl

/-! ## Remote Delegate Client (`app/utils/remote_call.py`)

`remote_call` builds `aiohttp.ClientSession()` with NO timeout argument, so
the call is bounded only by aiohttp's library default client timeout
(`ClientTimeout(total=300)`, i.e. 300 seconds), not by any 10-second bound
configured in this repository.  Every transport-level exception (timeout
included) is caught and returned as the `(None, None)` no-status sentinel;
an unknown HTTP method raises `NotImplementedError`. -/

namespace RemoteCall

/-- Outcome of the underlying HTTP attempt: a response with a status code
and parsed body, or any transport-level exception. -/
inductive HttpOutcome (α : Type)
  | resp (status : Nat) (body : α)
  | exn
deriving DecidableEq, Repr

/-- HTTP methods `remote_call` dispatches on. -/
def known_methods : List String := ["GET", "POST", "PUT", "DELETE", "PATCH"]

/-- The timeout argument passed to `aiohttp.ClientSession(...)` in the
source: there is none. -/
def client_session_timeout_arg : Option Nat := none

/-- aiohttp's documented default client timeout, `ClientTimeout(total=300)`
seconds, which applies when no timeout argument is given. -/
def aiohttp_default_total_timeout_seconds : Nat := 300

/-- The total timeout effectively bounding one `remote_call`. -/
def remote_call_total_timeout_seconds : Nat :=
  match client_session_timeout_arg with
  | none => aiohttp_default_total_timeout_seconds
  | some t => t

/-- `remote_call` from `app/utils/remote_call.py`: dispatch on the method,
return `(status, body)` on a response, `(None, None)` on any caught
exception; `.error ()` models the uncaught `NotImplementedError`. -/
def remote_call (α : Type) (method : String) (outcome : HttpOutcome α) :
    Except Unit (Option Nat × Option α) :=
  if method ∉ known_methods then .error ()
  else
    match outcome with
    | .resp status body => .ok (some status, some body)
    | .exn => .ok (none, none)

end RemoteCall

/-- C8 counterexample: the source configures no timeout at all on the
delegate client session, so the effective total bound is aiohttp's default
300 seconds — not the claimed 10 seconds. -/
theorem c8_timeout_counterexample :
    RemoteCall.client_session_timeout_arg = none ∧
    RemoteCall.remote_call_total_timeout_seconds = 300 ∧
    RemoteCall.remote_call_total_timeout_seconds ≠ 10 := by
  decide

/-- C8 (amended): every delegate call is bounded only by the HTTP client
library's default total timeout (300 s; no explicit timeout is configured),
and on any transport-level failure — timeout included — the call completes
with the `(None, None)` no-status sentinel for every known method instead
of blocking or raising. -/
theorem c8_remote_call_default_bound (method : String)
    (hm : method ∈ RemoteCall.known_methods) :
    RemoteCall.remote_call_total_timeout_seconds
      = RemoteCall.aiohttp_default_total_timeout_seconds ∧
    (RemoteCall.remote_call CourseQueryResp method .exn = .ok (none, none)) := by
  refine ⟨rfl, ?_⟩
  unfold RemoteCall.remote_call
  rw [if_neg (by simpa using hm)]

/-- Witness for the amended C8 theorem at method GET. -/
theorem c8_remote_call_default_bound_witness :
    RemoteCall.remote_call_total_timeout_seconds
      = RemoteCall.aiohttp_default_total_timeout_seconds ∧
    (RemoteCall.remote_call CourseQueryResp "GET" .exn = .ok (none, none)) :=
  c8_remote_call_default_bound "GET" (by decide)

/-! ## Login (`app/main.py`) -/

/-- Login request body (`UserLoginParams` in `app/models/user_model.py`):
a user id and a password field. -/
structure UserLoginParams where
  user_id : Nat
  password : String
deriving DecidableEq, Repr

/-- The JWT issued on success, determined by its signed payload
`{exp, uid}` (the signing secret is a fixed deployment constant). -/
structure Token where
  exp : Nat
  uid : Nat
deriving DecidableEq, Repr

/-- Login response body. -/
structure UserLoginResp where
  token : Token
  user_id : Nat
  role : Role
  username : String
deriving DecidableEq, Repr

namespace Main

/-- `login` from `app/main.py`: reject ids outside
`[1000000000, 1400000000)`, derive the role from the id, mint a token for
any admin-band id, and otherwise require a directory profile (`dir` is the
directory lookup `SELECT name FROM {role} WHERE id = :id`).  `now` is the
token-expiry clock.  The password field of the request is never read. -/
def login (dir : Role → Nat → Option String) (now : Nat)
    (p : UserLoginParams) : Except BizError UserLoginResp :=
  if p.user_id < 1000000000 ∨ 1400000000 ≤ p.user_id then .error err_invalid_uid
  else
    let role := ClassifyHelper.get_user_role p.user_id
    let expire := now + 24
    if role = .admin then .ok ⟨⟨expire, p.user_id⟩, p.user_id, .admin, "admin"⟩
    else
      match dir role p.user_id with
      | none => .error err_invalid_uid
      | some username => .ok ⟨⟨expire, p.user_id⟩, p.user_id, role, username⟩

end Main

/-- C9: login is password-independent — for any user id and any two
passwords the outcome (success or failure, role, username, token) is
identical; consequently any valid-band id that is admin-band or has a
directory profile obtains a token no matter the password supplied. -/
theorem c9_login_password_independent :
    (∀ (dir : Role → Nat → Option String) (now uid : Nat) (pw1 pw2 : String),
      Main.login dir now ⟨uid, pw1⟩ = Main.login dir now ⟨uid, pw2⟩) ∧
    (∀ (dir : Role → Nat → Option String) (now uid : Nat) (pw : String),
      1000000000 ≤ uid → uid < 1400000000 →
      (ClassifyHelper.get_user_role uid = .admin ∨
        (dir (ClassifyHelper.get_user_role uid) uid).isSome = true) →
      (Main.login dir now ⟨uid, pw⟩).isOk = true) := by
  constructor
  · intro dir now uid pw1 pw2
    rfl
  · intro dir now uid pw h1 h2 h3
    unfold Main.login
    rw [if_neg (show ¬(uid < 1000000000 ∨ 1400000000 ≤ uid) by omega)]
    by_cases hadm : ClassifyHelper.get_user_role uid = .admin
    · rw [if_pos hadm]
      rfl
    · rw [if_neg hadm]
      rcases h3 with h3 | h3
      · exact absurd h3 hadm
      · rcases Option.isSome_iff_exists.mp h3 with ⟨nm, hnm⟩
        rw [hnm]
        rfl

/-- Witness for the C9 theorem: an admin-band id logs in with an empty
directory, with some password. -/
theorem c9_login_password_independent_witness :
    (Main.login (fun _ _ => none) 0 ⟨1000000000, "pw"⟩).isOk = true :=
  c9_login_password_independent.2 (fun _ _ => none) 0 1000000000 "pw"
    (by norm_num) (by norm_num) (Or.inl (by decide))

/-! ## Public select/deselect endpoints (`app/routers/course_router.py`)

`select_or_deselect_course` is the enrollment coordinator entry: resolve
the acting student (self-service student or admin on behalf of one), check
the selection window for students, and either run the local private
operation inside the request's transactions or delegate to the owning
campus.  The public endpoint handlers `select_course`/`deselect_course`
merely `return select_or_deselect_course(...)` WITHOUT `await`: calling an
async function only constructs a coroutine object, so the handler executes
none of those checks, touches no store, and raises nothing — it hands the
un-run coroutine to the response layer. -/

/-- The authenticated caller (`CurUser` in `app/models/user_model.py`). -/
structure CurUser where
  user_id : Nat
  role : Role
deriving DecidableEq, Repr

/-- Request-scoped state of one campus deployment: the local shard (plus
directory students), whether a selection window is currently open
(`SELECT 1 FROM selection_batch WHERE NOW() BETWEEN …` found a row), and
which campus this process serves. -/
structure GlobalState where
  shard : ShardState
  windowOpen : Bool
  currentCampus : Campus
deriving DecidableEq, Repr

/-- Outcome of the coordinator: the local mutation completed, or a remote
campus's response status is passed through verbatim. -/
inductive SodResult
  | localDone
  | remotePassthrough (status : Nat)
deriving DecidableEq, Repr

/-- An un-awaited Python coroutine: the body runs only when forced. -/
structure Coro (α : Type) where
  body : Unit → α

namespace CourseRouter

/-- `select_or_deselect_course` from `app/routers/course_router.py`.
`local_func` is the private local operation (`db_router.select_course` or
`db_router.deselect_course`); the source passes `(course_id, stu_id)`
positionally into a function whose parameters are `(stu_id, course_id)`,
and that swap is kept faithfully in the local branch.  `remote` gives the
status of the delegate call to a peer campus (`none` = no-status sentinel,
surfaced as bad-gateway). -/
def select_or_deselect_course (u : CurUser) (g : GlobalState)
    (course_id : Nat) (stu_id : Option Nat)
    (local_func : ShardState → Nat → Nat → Except DbRouter.SelErr Unit × ShardState)
    (remote : Campus → Option Nat) : Except DbRouter.SelErr SodResult × GlobalState :=
  let go := fun (sid : Nat) =>
    if u.role = .student ∧ g.windowOpen = false then
      (.error (.biz err_selection_time), g)
    else
      let cc := ClassifyHelper.get_course_campus course_id
      if cc = g.currentCampus then
        let r := local_func g.shard course_id sid
        (r.1.map fun _ => SodResult.localDone, { g with shard := r.2 })
      else
        match remote cc with
        | none => (.error (.biz err_bad_gateway), g)
        | some code => (.ok (.remotePassthrough code), g)
  match stu_id with
  | none =>
    if u.role ≠ .student then (.error (.biz err_no_permission), g)
    else go u.user_id
  | some sid =>
    if u.role ≠ .admin then (.error (.biz err_no_permission), g)
    else go sid

/-- The public `POST /{course_id}/select` handler: returns the coordinator
coroutine un-awaited; the state and effect trace it reports are those of
the handler itself. -/
def select_course (u : CurUser) (g : GlobalState) (course_id : Nat)
    (stu_id : Option Nat) (remote : Campus → Option Nat) :
    Coro (Except DbRouter.SelErr SodResult × GlobalState) × GlobalState × List Effect :=
  (⟨fun _ => select_or_deselect_course u g course_id stu_id
      (fun s a b => DbRouter.select_course s a b) remote⟩, g, [])

/-- The public `POST /{course_id}/deselect` handler, same shape. -/
def deselect_course (u : CurUser) (g : GlobalState) (course_id : Nat)
    (stu_id : Option Nat) (remote : Campus → Option Nat) :
    Coro (Except DbRouter.SelErr SodResult × GlobalState) × GlobalState × List Effect :=
  (⟨fun _ => select_or_deselect_course u g course_id stu_id
      (fun s a b => DbRouter.deselect_course s a b) remote⟩, g, [])

end CourseRouter

/-- C10: for every input, the public select/deselect handlers return the
coordinator coroutine without awaiting it: the handler's own effect trace
is empty, the store state is unchanged, no error is raised, and the value
produced is exactly the un-run coordinator coroutine. -/
theorem c10_handlers_return_unawaited_coroutine :
    ∀ (u : CurUser) (g : GlobalState) (course_id : Nat) (stu_id : Option Nat)
      (remote : Campus → Option Nat),
      (CourseRouter.select_course u g course_id stu_id remote).2.1 = g ∧
      (CourseRouter.select_course u g course_id stu_id remote).2.2 = [] ∧
      ((CourseRouter.select_course u g course_id stu_id remote).1.body ()
        = CourseRouter.select_or_deselect_course u g course_id stu_id
            (fun s a b => DbRouter.select_course s a b) remote) ∧
      (CourseRouter.deselect_course u g course_id stu_id remote).2.1 = g ∧
      (CourseRouter.deselect_course u g course_id stu_id remote).2.2 = [] ∧
      ((CourseRouter.deselect_course u g course_id stu_id remote).1.body ()
        = CourseRouter.select_or_deselect_course u g course_id stu_id
            (fun s a b => DbRouter.deselect_course s a b) remote) :=
  fun _ _ _ _ _ => ⟨rfl, rfl, rfl, rfl, rfl, rfl⟩
